import Mathlib

/-!
Verification development for the `notify` CLI (SMS/push notification sender).

The definitions below are a shallow embedding of the TypeScript sources:
  * `src/sms/types.ts`        — error taxonomy, exit codes, encoding analyzer
  * `src/config/loader.ts`    — provider detection and credential loaders
  * `src/cli.ts`              — exit-code mapping and dispatch orchestration
  * `src/sms/providers/*.ts`  — per-backend error mapping
  * `src/validation/phone.ts` — phone sanitization and validation

JavaScript strings are modelled as Lean `String`s; iteration with `for..of`
(which walks Unicode code points) corresponds to walking `String.data`, while
JavaScript's `.length` (UTF-16 code units) is modelled separately.  Environment
variables are an explicit record of `Option String` fields (a variable is
either unset, or set to a string which may be empty).  Thrown exceptions are
modelled as explicit error values of dedicated inductive types.
-/

namespace Notify

/-! ## Error taxonomy (src/sms/types.ts) -/

/-- `ErrorCode` from src/sms/types.ts: the closed union of error categories. -/
inductive ErrorCode where
  | invalidPhone
  | missingConfig
  | authFailed
  | networkError
  | providerError
  | rateLimited
deriving DecidableEq

/-- The runtime string value of each `ErrorCode` member (the TS type is a
union of string literals). -/
def ErrorCode.toCodeString : ErrorCode → String
  | .invalidPhone => "INVALID_PHONE"
  | .missingConfig => "MISSING_CONFIG"
  | .authFailed => "AUTH_FAILED"
  | .networkError => "NETWORK_ERROR"
  | .providerError => "PROVIDER_ERROR"
  | .rateLimited => "RATE_LIMITED"

/-- `SendError` from src/sms/types.ts. -/
structure SendError where
  code : ErrorCode
  message : String
  retryable : Bool
  guidance : String
deriving DecidableEq

/-- `ExitCodes` constants from src/sms/types.ts. -/
def ExitCodes.SUCCESS : Nat := 0

def ExitCodes.GENERAL_ERROR : Nat := 1

def ExitCodes.INVALID_ARGUMENTS : Nat := 2

def ExitCodes.CONFIG_ERROR : Nat := 3

def ExitCodes.VALIDATION_ERROR : Nat := 4

def ExitCodes.NETWORK_ERROR : Nat := 5

/-! ## Encoding analyzer (src/sms/types.ts) -/

/-- The two SMS encodings (TS string union 'GSM-7' | 'UCS-2'). -/
inductive SmsEncoding where
  | gsm7
  | ucs2
deriving DecidableEq

/-- `GSM7_BASIC_CHARS` from src/sms/types.ts (a JS `Set`, modelled as a list;
`'\x27'` is the apostrophe character, `\x22` the double quote). -/
def GSM7_BASIC_CHARS : List Char :=
  ['@', '£', '$', '¥', 'è', 'é', 'ù', 'ì', 'ò', 'Ç', '\n', 'Ø', 'ø', '\r', 'Å', 'å',
   'Δ', '_', 'Φ', 'Γ', 'Λ', 'Ω', 'Π', 'Ψ', 'Σ', 'Θ', 'Ξ', 'Æ', 'æ', 'ß', 'É',
   ' ', '!', '\x22', '#', '¤', '%', '&', '\x27', '(', ')', '*', '+', ',', '-', '.', '/',
   '0', '1', '2', '3', '4', '5', '6', '7', '8', '9', ':', ';', '<', '=', '>', '?',
   '¡', 'A', 'B', 'C', 'D', 'E', 'F', 'G', 'H', 'I', 'J', 'K', 'L', 'M', 'N', 'O',
   'P', 'Q', 'R', 'S', 'T', 'U', 'V', 'W', 'X', 'Y', 'Z', 'Ä', 'Ö', 'Ñ', 'Ü', '§',
   '¿', 'a', 'b', 'c', 'd', 'e', 'f', 'g', 'h', 'i', 'j', 'k', 'l', 'm', 'n', 'o',
   'p', 'q', 'r', 's', 't', 'u', 'v', 'w', 'x', 'y', 'z', 'ä', 'ö', 'ñ', 'ü', 'à']

/-- `GSM7_EXTENDED_CHARS` from src/sms/types.ts (`\x7b`/`\x7d` are the curly
braces). -/
def GSM7_EXTENDED_CHARS : List Char :=
  ['|', '^', '€', '\x7b', '\x7d', '[', ']', '~', '\\']

/-- The `for (const char of text)` loop body of `detectMessageEncoding`:
returns UCS-2 at the first character outside both GSM-7 sets. -/
def detectMessageEncodingAux : List Char → SmsEncoding
  | [] => .gsm7
  | c :: rest =>
    if !GSM7_BASIC_CHARS.contains c && !GSM7_EXTENDED_CHARS.contains c then .ucs2
    else detectMessageEncodingAux rest

/-- `detectMessageEncoding` from src/sms/types.ts. -/
def detectMessageEncoding (text : String) : SmsEncoding :=
  detectMessageEncodingAux text.data

/-- The result record of `calculateSegmentCount`. -/
structure SegmentInfo where
  encoding : SmsEncoding
  segmentCount : Nat
  charCount : Nat
deriving DecidableEq

/-- JavaScript's `String.prototype.length`: the number of UTF-16 code units.
A code point at or above U+10000 is stored as a surrogate pair (2 units). -/
def jsStringLength (text : String) : Nat :=
  text.data.foldl (fun acc c => acc + (if 65536 ≤ c.toNat then 2 else 1)) 0

/-- `calculateSegmentCount` from src/sms/types.ts.  `Math.ceil` of the
floating-point division is embedded as the rational ceiling `Int.ceil`. -/
def calculateSegmentCount (text : String) : SegmentInfo :=
  let encoding := detectMessageEncoding text
  let charCount :=
    if encoding = .gsm7 then
      -- Count extended chars as 2
      text.data.foldl (fun acc c => acc + (if GSM7_EXTENDED_CHARS.contains c then 2 else 1)) 0
    else
      jsStringLength text
  -- Determine segment limits
  let singleLimit := if encoding = .gsm7 then 160 else 70
  let multiLimit : Nat := if encoding = .gsm7 then 153 else 67
  let segmentCount :=
    if charCount ≤ singleLimit then 1
    else (Int.ceil ((charCount : ℚ) / (multiLimit : ℚ))).toNat
  ⟨encoding, segmentCount, charCount⟩

/-! ## Environment and credential resolver (src/config/loader.ts) -/

/-- The environment variables consulted by the configuration loader, as an
explicit read-only record.  `none` models an unset variable; `some s` a
variable set to `s` (possibly the empty string). -/
structure Env where
  pushoverUser : Option String      -- PUSHOVER_USER
  pushoverToken : Option String     -- PUSHOVER_TOKEN
  ntfyTopic : Option String         -- NTFY_TOPIC
  ntfyServer : Option String        -- NTFY_SERVER
  twilioAccountSid : Option String  -- TWILIO_ACCOUNT_SID
  twilioAuthToken : Option String   -- TWILIO_AUTH_TOKEN
  twilioPhoneNumber : Option String -- TWILIO_PHONE_NUMBER
  emailUser : Option String         -- EMAIL_USER
  emailPass : Option String         -- EMAIL_PASS
  smsCarrier : Option String        -- SMS_CARRIER
  emailHost : Option String         -- EMAIL_HOST
  emailPort : Option String         -- EMAIL_PORT
  emailSecure : Option String       -- EMAIL_SECURE
deriving DecidableEq

/-- JavaScript truthiness of an environment value (`!!v`): set and non-empty. -/
def truthy : Option String → Bool
  | none => false
  | some s => !decide (s = "")

/-- JavaScript `v || d` for an environment value: the value when truthy,
otherwise the default. -/
def jsOr (v : Option String) (d : String) : String :=
  match v with
  | none => d
  | some s => if s = "" then d else s

/-- JavaScript `parseInt(s, 10)`: skip leading whitespace, optional sign,
then a run of decimal digits; `none` models `NaN` (no digits found). -/
def jsParseInt (s : String) : Option Int :=
  let digitsVal (l : List Char) : Option Nat :=
    let ds := l.takeWhile Char.isDigit
    if ds.isEmpty then none
    else some (ds.foldl (fun a c => a * 10 + (c.toNat - 48)) 0)
  let t := s.data.dropWhile Char.isWhitespace
  match t with
  | '-' :: rest => (digitsVal rest).map (fun n => -(n : Int))
  | '+' :: rest => (digitsVal rest).map (fun n => (n : Int))
  | _ => (digitsVal t).map (fun n => (n : Int))

/-- The provider union returned by `detectProvider` (`'none'` is the literal
string in TS). -/
inductive Provider where
  | pushover
  | ntfy
  | twilio
  | email
  | none
deriving DecidableEq

/-- `detectProvider` from src/config/loader.ts.
Priority: pushover > ntfy > twilio > email. -/
def detectProvider (env : Env) : Provider :=
  let hasPushover := truthy env.pushoverUser && truthy env.pushoverToken
  let hasNtfy := truthy env.ntfyTopic
  let hasTwilio := truthy env.twilioAccountSid && truthy env.twilioAuthToken
  let hasEmail := truthy env.emailUser && truthy env.emailPass
  if hasPushover then .pushover
  else if hasNtfy then .ntfy
  else if hasTwilio then .twilio
  else if hasEmail then .email
  else .none

/-- `Credentials` (Twilio) from src/sms/types.ts. -/
structure Credentials where
  accountSid : String
  authToken : String
  fromNumber : String
deriving DecidableEq

/-- `EmailCredentials` from src/sms/providers/email-gateway.ts.
`port` is `none` when `parseInt` produced `NaN`. -/
structure EmailCredentials where
  host : String
  port : Option Int
  secure : Bool
  user : String
  pass : String
  carrier : String
deriving DecidableEq

/-- `NtfyCredentials` from src/sms/providers/ntfy.ts (the loader always
populates `server`). -/
structure NtfyCredentials where
  topic : String
  server : String
deriving DecidableEq

/-- `PushoverCredentials` from src/sms/providers/pushover.ts. -/
structure PushoverCredentials where
  userKey : String
  apiToken : String
deriving DecidableEq

/-- The success-or-error result unions of src/config/loader.ts
(`{ success: true; credentials } | { success: false; error }`). -/
inductive LoadResult (α : Type) where
  | ok (credentials : α)
  | error (e : SendError)
deriving DecidableEq

/-- The `missing` list built by `loadCredentials` (Twilio). -/
def twilioMissing (env : Env) : List String :=
  (if !truthy env.twilioAccountSid then ["TWILIO_ACCOUNT_SID"] else []) ++
  (if !truthy env.twilioAuthToken then ["TWILIO_AUTH_TOKEN"] else []) ++
  (if !truthy env.twilioPhoneNumber then ["TWILIO_PHONE_NUMBER"] else [])

/-- `loadCredentials` (Twilio) from src/config/loader.ts. -/
def loadCredentials (env : Env) : LoadResult Credentials :=
  let missing := twilioMissing env
  if missing.length > 0 then
    .error
      { code := .missingConfig
        message := "Missing required environment variables: " ++ String.intercalate ", " missing
        retryable := false
        guidance := "Please set the following environment variables:\n" ++
          String.intercalate "\n" (missing.map (fun v => "  export " ++ v ++ "=\x22your-value\x22")) ++
          "\n\nGet these values from https://console.twilio.com" }
  else
    .ok
      { accountSid := env.twilioAccountSid.getD ""
        authToken := env.twilioAuthToken.getD ""
        fromNumber := env.twilioPhoneNumber.getD "" }

/-- The `missing` list built by `loadEmailCredentials`. -/
def emailMissing (env : Env) : List String :=
  (if !truthy env.emailUser then ["EMAIL_USER"] else []) ++
  (if !truthy env.emailPass then ["EMAIL_PASS"] else []) ++
  (if !truthy env.smsCarrier then ["SMS_CARRIER"] else [])

/-- `loadEmailCredentials` from src/config/loader.ts. -/
def loadEmailCredentials (env : Env) : LoadResult EmailCredentials :=
  let host := jsOr env.emailHost "smtp.gmail.com"
  let port := jsParseInt (jsOr env.emailPort "587")
  let secure := env.emailSecure == some "true"
  let missing := emailMissing env
  if missing.length > 0 then
    .error
      { code := .missingConfig
        message := "Missing required environment variables: " ++ String.intercalate ", " missing
        retryable := false
        guidance := "Please set the following environment variables:\n" ++
          String.intercalate "\n" (missing.map (fun v => "  export " ++ v ++ "=\x22your-value\x22")) ++
          "\n\nSupported carriers: att, tmobile, verizon, sprint" }
  else
    .ok
      { host := host
        port := port
        secure := secure
        user := env.emailUser.getD ""
        pass := env.emailPass.getD ""
        carrier := env.smsCarrier.getD "" }

/-- `loadNtfyCredentials` from src/config/loader.ts. -/
def loadNtfyCredentials (env : Env) : LoadResult NtfyCredentials :=
  let server := jsOr env.ntfyServer "https://ntfy.sh"
  if !truthy env.ntfyTopic then
    .error
      { code := .missingConfig
        message := "Missing required environment variable: NTFY_TOPIC"
        retryable := false
        guidance := "Please set your ntfy topic:\n  export NTFY_TOPIC=\x22your-topic-name\x22\n\nThen subscribe to this topic on your phone using the ntfy app." }
  else
    .ok { topic := env.ntfyTopic.getD "", server := server }

/-- The `missing` list built by `loadPushoverCredentials`. -/
def pushoverMissing (env : Env) : List String :=
  (if !truthy env.pushoverUser then ["PUSHOVER_USER"] else []) ++
  (if !truthy env.pushoverToken then ["PUSHOVER_TOKEN"] else [])

/-- `loadPushoverCredentials` from src/config/loader.ts. -/
def loadPushoverCredentials (env : Env) : LoadResult PushoverCredentials :=
  let missing := pushoverMissing env
  if missing.length > 0 then
    .error
      { code := .missingConfig
        message := "Missing required environment variables: " ++ String.intercalate ", " missing
        retryable := false
        guidance := "Please set the following environment variables:\n" ++
          String.intercalate "\n" (missing.map (fun v => "  export " ++ v ++ "=\x22your-value\x22")) ++
          "\n\nGet these values from https://pushover.net" }
  else
    .ok { userKey := env.pushoverUser.getD "", apiToken := env.pushoverToken.getD "" }

/-! ## Exit-code mapping (src/cli.ts) -/

/-- The `switch (error.code)` of `exitWithError` in src/cli.ts, over the
runtime string value of the code (the `default` arm handles any string not
among the six members of the union). -/
def exitCodeForCodeString (code : String) : Nat :=
  if code = "INVALID_PHONE" then ExitCodes.VALIDATION_ERROR
  else if code = "MISSING_CONFIG" ∨ code = "AUTH_FAILED" then ExitCodes.CONFIG_ERROR
  else if code = "NETWORK_ERROR" ∨ code = "PROVIDER_ERROR" ∨ code = "RATE_LIMITED" then
    ExitCodes.NETWORK_ERROR
  else ExitCodes.GENERAL_ERROR

/-- `exitWithError` from src/cli.ts, as the process exit code it produces. -/
def exitWithError (e : SendError) : Nat :=
  exitCodeForCodeString e.code.toCodeString

/-! ## Provider error mapping (src/sms/providers/*.ts, src/sms/client.ts) -/

/-- A thrown JavaScript value (`err: unknown` in the catch blocks).  The
provider SDK and Node.js errors are `Error` instances carrying a `message`;
a `code` property is either a number (Twilio REST errors) or a string
(Node.js system errors).  `other` is a thrown non-`Error` value. -/
inductive ThrownValue where
  | withNumCode (code : Nat) (message : String)
  | withStrCode (code : String) (message : String)
  | errorObj (message : String)
  | other
deriving DecidableEq

/-- `err instanceof Error ? err.message : 'Unknown error'`. -/
def ThrownValue.jsMessage : ThrownValue → String
  | .withNumCode _ m => m
  | .withStrCode _ m => m
  | .errorObj m => m
  | .other => "Unknown error"

/-- `TwilioSmsClient.mapTwilioError` from src/sms/providers/twilio.ts.
The first `'code' in err` branch compares the code against Twilio's numeric
codes; the second compares it against Node.js string codes; a value whose
code matches neither falls through to the generic provider error. -/
def mapTwilioError (err : ThrownValue) : SendError :=
  match err with
  | .withNumCode code message =>
    if code = 20003 then
      { code := .authFailed
        message := "Authentication failed"
        retryable := false
        guidance := "Your Twilio credentials are invalid. Please verify your TWILIO_ACCOUNT_SID and TWILIO_AUTH_TOKEN at https://console.twilio.com" }
    else if code = 29 then
      { code := .rateLimited
        message := "Too many requests"
        retryable := true
        guidance := "You have exceeded the rate limit. Please wait a moment and try again." }
    else if code = 21211 ∨ code = 21614 then
      { code := .invalidPhone
        message := if message = "" then "Invalid phone number" else message
        retryable := false
        guidance := "The destination phone number is invalid or cannot receive SMS. Please check the number and try again." }
    else
      { code := .providerError
        message := "SMS provider error: " ++ message
        retryable := false
        guidance := "An error occurred while sending the SMS. Please try again or contact support." }
  | .withStrCode code message =>
    if code = "ENOTFOUND" ∨ code = "ECONNREFUSED" ∨ code = "ETIMEDOUT" then
      { code := .networkError
        message := "Network connection failed"
        retryable := true
        guidance := "Could not connect to Twilio. Please check your internet connection and try again." }
    else
      { code := .providerError
        message := "SMS provider error: " ++ message
        retryable := false
        guidance := "An error occurred while sending the SMS. Please try again or contact support." }
  | _ =>
    { code := .providerError
      message := "SMS provider error: " ++ err.jsMessage
      retryable := false
      guidance := "An error occurred while sending the SMS. Please try again or contact support." }

/-- `EmailGatewaySmsClient.mapEmailError` from
src/sms/providers/email-gateway.ts.  Only string codes match the `EAUTH` /
`ECONNREFUSED` / `ENOTFOUND` tests. -/
def mapEmailError (err : ThrownValue) : SendError :=
  match err with
  | .withStrCode code message =>
    if code = "EAUTH" then
      { code := .authFailed
        message := "Email authentication failed"
        retryable := false
        guidance := "Your email credentials are invalid. Check EMAIL_USER and EMAIL_PASS in your .env file." }
    else if code = "ECONNREFUSED" ∨ code = "ENOTFOUND" then
      { code := .networkError
        message := "Could not connect to email server"
        retryable := true
        guidance := "Check your internet connection and EMAIL_HOST setting." }
    else
      { code := .providerError
        message := "Email gateway error: " ++ message
        retryable := false
        guidance := "An error occurred while sending via email gateway. Check your email settings." }
  | _ =>
    { code := .providerError
      message := "Email gateway error: " ++ err.jsMessage
      retryable := false
      guidance := "An error occurred while sending via email gateway. Check your email settings." }

/-- `NtfySmsClient.mapHttpError` from src/sms/providers/ntfy.ts. -/
def NtfySmsClient.mapHttpError (status : Nat) (message : String) : SendError :=
  if status = 429 then
    { code := .rateLimited
      message := "Too many requests to ntfy.sh"
      retryable := true
      guidance := "You have exceeded the rate limit. Wait a moment and try again." }
  else
    { code := .providerError
      message := "ntfy.sh error (" ++ toString status ++ "): " ++ message
      retryable := false
      guidance := "Check your NTFY_TOPIC setting and try again." }

/-- Contiguous substring test on character lists. -/
def strIncludesAux (needle : List Char) : List Char → Bool
  | [] => needle.isEmpty
  | c :: rest => needle.isPrefixOf (c :: rest) || strIncludesAux needle rest

/-- JavaScript `hay.includes(needle)`: contiguous substring test. -/
def strIncludes (hay needle : String) : Bool :=
  strIncludesAux needle.data hay.data

/-- `NtfySmsClient.mapNetworkError` from src/sms/providers/ntfy.ts
(`message.includes(...)` is the substring test). -/
def NtfySmsClient.mapNetworkError (err : ThrownValue) : SendError :=
  let message := err.jsMessage
  if strIncludes message "fetch failed" ∨ strIncludes message "ENOTFOUND" then
    { code := .networkError
      message := "Could not connect to ntfy.sh"
      retryable := true
      guidance := "Check your internet connection and try again." }
  else
    { code := .providerError
      message := "ntfy.sh error: " ++ message
      retryable := false
      guidance := "An error occurred while sending the notification." }

/-- Outcome of one send attempt, without the wall-clock timestamp (real time
is outside the embedding). -/
structure SendOutcome where
  success : Bool
  messageId : Option String
  dest : String   -- the TS field is named `to`, a reserved token in Lean
  error : Option SendError
deriving DecidableEq

/-- The transport-level outcome seen by `NtfySmsClient.sendSms`: an HTTP
response that is not `ok`, a successful response with a JSON `id`, or a
thrown value. -/
inductive NtfyTransport where
  | httpError (status : Nat) (body : String)
  | success (id : String)
  | thrown (err : ThrownValue)
deriving DecidableEq

/-- `NtfySmsClient.sendSms` from src/sms/providers/ntfy.ts, as a function of
the transport outcome. -/
def ntfySend (dest : String) : NtfyTransport → SendOutcome
  | .httpError status body =>
    ⟨false, none, dest, some (NtfySmsClient.mapHttpError status body)⟩
  | .success id => ⟨true, some id, dest, none⟩
  | .thrown err => ⟨false, none, dest, some (NtfySmsClient.mapNetworkError err)⟩

/-- The transport-level outcome seen by `PushoverSmsClient.sendSms`: a JSON
response `{ status, request, errors? }` (the code never consults the HTTP
status), or a thrown value. -/
inductive PushoverTransport where
  | response (status : Nat) (request : String) (errors : Option (List String))
  | thrown (err : ThrownValue)
deriving DecidableEq

/-- `result.errors?.join(', ') || 'Unknown error'`. -/
def pushoverErrorText : Option (List String) → String
  | none => "Unknown error"
  | some l =>
    let j := String.intercalate ", " l
    if j = "" then "Unknown error" else j

/-- `PushoverSmsClient.sendSms` from src/sms/providers/pushover.ts, as a
function of the transport outcome. -/
def pushoverSend (dest : String) : PushoverTransport → SendOutcome
  | .response status request errors =>
    if status ≠ 1 then
      ⟨false, none, dest,
        some
          { code := .providerError
            message := "Pushover error: " ++ pushoverErrorText errors
            retryable := false
            guidance := "Check your PUSHOVER_USER and PUSHOVER_TOKEN settings." }⟩
    else ⟨true, some request, dest, none⟩
  | .thrown err =>
    ⟨false, none, dest,
      some
        { code := .networkError
          message := "Pushover error: " ++ err.jsMessage
          retryable := true
          guidance := "Check your internet connection and try again." }⟩

/-- The transport-level outcome seen by `TwilioSmsClient.sendSms` /
`EmailGatewaySmsClient.sendSms`: the SDK call resolved with a message id, or
threw. -/
inductive SdkTransport where
  | success (id : String)
  | thrown (err : ThrownValue)
deriving DecidableEq

/-- `TwilioSmsClient.sendSms` from src/sms/providers/twilio.ts, as a function
of the transport outcome. -/
def twilioSend (dest : String) : SdkTransport → SendOutcome
  | .success id => ⟨true, some id, dest, none⟩
  | .thrown err => ⟨false, none, dest, some (mapTwilioError err)⟩

/-- `EmailGatewaySmsClient.sendSms` error path from
src/sms/providers/email-gateway.ts, as a function of the transport outcome. -/
def emailSend (dest : String) : SdkTransport → SendOutcome
  | .success id => ⟨true, some id, dest, none⟩
  | .thrown err => ⟨false, none, dest, some (mapEmailError err)⟩

/-! ## Email gateway client construction (src/sms/providers/email-gateway.ts) -/

/-- `CARRIER_GATEWAYS` from src/sms/providers/email-gateway.ts. -/
def CARRIER_GATEWAYS : List (String × String) :=
  [("att", "txt.att.net"),
   ("tmobile", "tmomail.net"),
   ("verizon", "vtext.com"),
   ("sprint", "messaging.sprintpcs.com"),
   ("uscellular", "email.uscc.net"),
   ("boost", "sms.myboostmobile.com"),
   ("cricket", "sms.cricketwireless.net"),
   ("metropcs", "mymetropcs.com"),
   ("virgin", "vmobl.com")]

/-- Result of running a constructor that may `throw`: the constructed value,
or the thrown `Error`'s message. -/
inductive Thrown (α : Type) where
  | ok (value : α)
  | thrown (message : String)
deriving DecidableEq

/-- JavaScript `s.toLowerCase()` (over the code points). -/
def jsToLower (s : String) : String :=
  String.mk (s.data.map Char.toLower)

/-- JavaScript object-key lookup `CARRIER_GATEWAYS[key]`. -/
def lookupGateway : List (String × String) → String → Option String
  | [], _ => Option.none
  | (k, v) :: rest, key => if key = k then some v else lookupGateway rest key

/-- The state of a constructed `EmailGatewaySmsClient` (the nodemailer
transporter configuration plus the resolved gateway domain). -/
structure EmailGatewaySmsClient where
  host : String
  port : Option Int
  secure : Bool
  user : String
  pass : String
  fromEmail : String
  carrierDomain : String
deriving DecidableEq

/-- The `EmailGatewaySmsClient` constructor from
src/sms/providers/email-gateway.ts.  The constructor `throw`s on an unknown
carrier; the thrown `Error` is modelled as `Except.error` carrying its
message. -/
def EmailGatewaySmsClient.make (credentials : EmailCredentials) :
    Thrown EmailGatewaySmsClient :=
  match lookupGateway CARRIER_GATEWAYS (jsToLower credentials.carrier) with
  | Option.none =>
    .thrown ("Unknown carrier: " ++ credentials.carrier ++ ". Supported: " ++
      String.intercalate ", " (CARRIER_GATEWAYS.map Prod.fst))
  | Option.some domain =>
    .ok
      { host := credentials.host
        port := credentials.port
        secure := credentials.secure
        user := credentials.user
        pass := credentials.pass
        fromEmail := credentials.user
        carrierDomain := domain }

/-! ## Phone validation (src/validation/phone.ts) -/

/-- `PhoneNumber` from src/sms/types.ts. -/
structure PhoneNumber where
  raw : String
  e164 : String
  country : Option String
deriving DecidableEq

/-- ASCII decimal digit test (the characters '0'..'9'). -/
def isDigitChar (c : Char) : Bool :=
  48 ≤ c.toNat && c.toNat ≤ 57

/-- Whitespace as matched by the sanitizer's `trim` / `\s` (space, tab,
newline, carriage return). -/
def isWsChar (c : Char) : Bool :=
  c.toNat = 32 || c.toNat = 9 || c.toNat = 10 || c.toNat = 13

/-- A character removed by the sanitizer's `replace(/[\s\-().]/g, '')`:
whitespace, hyphen, parentheses, period. -/
def isStripChar (c : Char) : Bool :=
  isWsChar c || c.toNat = 45 || c.toNat = 40 || c.toNat = 41 || c.toNat = 46

/-- `input.trim()` on the character list. -/
def trimChars (l : List Char) : List Char :=
  ((l.dropWhile isWsChar).reverse.dropWhile isWsChar).reverse

/-- `sanitizePhoneNumber` from src/validation/phone.ts: trim, remember a
leading `+`, strip formatting characters, re-attach the `+` if stripping
removed it. -/
def sanitizePhoneNumber (input : String) : String :=
  let sanitized := trimChars input.data
  let hasPlus := sanitized.head? = some '+'
  let sanitized := sanitized.filter (fun c => !isStripChar c)
  let sanitized :=
    if hasPlus ∧ sanitized.head? ≠ some '+' then '+' :: sanitized else sanitized
  String.mk sanitized

/-- A parsed phone number: the full digit string (country calling code
followed by the national number, no `+`). -/
structure ParsedPhone where
  digits : List Char
deriving DecidableEq

/-- Modelled from the spec: the third-party parsing library
(`libphonenumber-js`, not part of this repository) as used by
`validateAndFormatPhone`.  Per §4.1, an input with a leading `+` is taken as
an international number (its digit string is used as is); an input without
one is interpreted with `defaultRegion` as the assumed region — modelled for
the `US` default region, where a 10-digit national number gains the calling
code `1` and an 11-digit number starting with `1` is already complete.  A
sanitized input that is not a pure digit string fails to parse. -/
def parsePhoneNumberLib (s : String) (defaultRegion : String) : Option ParsedPhone :=
  if s.data.head? = some '+' then
    if s.data.tail ≠ [] ∧ s.data.tail.all isDigitChar then some ⟨s.data.tail⟩
    else Option.none
  else if s.data ≠ [] ∧ s.data.all isDigitChar ∧ defaultRegion = "US" then
    if s.data.length = 10 then some ⟨'1' :: s.data⟩
    else if s.data.length = 11 ∧ s.data.head? = some '1' then some ⟨s.data⟩
    else Option.none
  else Option.none

/-- Modelled from the spec: the library's `isPossible()` length-plausibility
check (§4.1 — "plausible length for that country"), as a window on the total
digit count (E.164 allows at most 15 digits). -/
def phoneIsPossible (p : ParsedPhone) : Bool :=
  8 ≤ p.digits.length && p.digits.length ≤ 15

/-- Modelled from the spec: the library's `format('E.164')` — `+` followed by
the full digit string, no separators. -/
def formatE164 (p : ParsedPhone) : String :=
  String.mk ('+' :: p.digits)

/-- Modelled from the spec: the library's detected region (§4.1), derived
from the digit string (the `US` calling code `1` with an 11-digit number). -/
def phoneCountry (p : ParsedPhone) : Option String :=
  if p.digits.head? = some '1' ∧ p.digits.length = 11 then some "US" else none

/-- The success-or-error result union of src/validation/phone.ts. -/
inductive PhoneValidationResult where
  | ok (phone : PhoneNumber)
  | error (e : SendError)
deriving DecidableEq

/-- `validateAndFormatPhone` from src/validation/phone.ts (the parse step and
its thrown errors both land in the "could not be parsed" failure). -/
def validateAndFormatPhone (input : String) (defaultRegion : String) :
    PhoneValidationResult :=
  let sanitized := sanitizePhoneNumber input
  match parsePhoneNumberLib sanitized defaultRegion with
  | Option.none =>
    .error
      { code := .invalidPhone
        message := "Could not parse phone number"
        retryable := false
        guidance := "The phone number \x22" ++ input ++ "\x22 could not be parsed. Please provide a valid phone number in E.164 format (e.g., +14155552671) or national format with --country flag." }
  | Option.some phone =>
    if phoneIsPossible phone then
      .ok { raw := input, e164 := formatE164 phone, country := phoneCountry phone }
    else
      .error
        { code := .invalidPhone
          message := "Phone number has invalid length"
          retryable := false
          guidance := "The phone number \x22" ++ input ++ "\x22 has an invalid length for the detected country. Please check the number and try again." }

/-! ## Dispatch orchestration (src/cli.ts) -/

/-- The provider client constructed by the orchestrator (step 2 of the CLI
action): one variant per backend, per the factories in src/sms/client.ts. -/
inductive ClientSpec where
  | twilio (credentials : Credentials)
  | email (client : EmailGatewaySmsClient)
  | ntfy (credentials : NtfyCredentials)
  | pushover (credentials : PushoverCredentials)
deriving DecidableEq

/-- Outcome of the credential-resolution / client-construction phase of the
CLI action: the process exits with a code and error, a client is ready for
the send step, or an exception escaped uncaught (no handler in src/cli.ts). -/
inductive RunOutcome where
  | exited (code : Nat) (e : SendError)
  | clientReady (client : ClientSpec)
  | crashed (message : String)
deriving DecidableEq

/-- The `'No SMS provider configured'` error of src/cli.ts. -/
def noProviderError : SendError :=
  { code := .missingConfig
    message := "No SMS provider configured"
    retryable := false
    guidance := "Please configure a provider:\n\nPushover ($5, reliable):\n  export PUSHOVER_USER=\x22your-user-key\x22\n  export PUSHOVER_TOKEN=\x22your-api-token\x22\n\nntfy.sh (free):\n  export NTFY_TOPIC=\x22my-alerts\x22\n\nTwilio:\n  export TWILIO_ACCOUNT_SID=\x22...\x22\n  export TWILIO_AUTH_TOKEN=\x22...\x22\n  export TWILIO_PHONE_NUMBER=\x22...\x22" }

/-- Step 2 of the CLI action in src/cli.ts: detect the provider, load its
credentials, and construct its client; on a load failure, exit via
`exitWithError` without consulting any other backend. -/
def selectClient (env : Env) : RunOutcome :=
  match detectProvider env with
  | .pushover =>
    match loadPushoverCredentials env with
    | .ok c => .clientReady (.pushover c)
    | .error e => .exited (exitWithError e) e
  | .ntfy =>
    match loadNtfyCredentials env with
    | .ok c => .clientReady (.ntfy c)
    | .error e => .exited (exitWithError e) e
  | .twilio =>
    match loadCredentials env with
    | .ok c => .clientReady (.twilio c)
    | .error e => .exited (exitWithError e) e
  | .email =>
    match loadEmailCredentials env with
    | .ok c =>
      match EmailGatewaySmsClient.make c with
      | .ok client => .clientReady (.email client)
      | .thrown m => .crashed m
    | .error e => .exited (exitWithError e) e
  | .none => .exited (exitWithError noProviderError) noProviderError

/-! ## Claim-side definitions and helper lemmas -/

/-- A set, non-empty environment value: the presence condition the spec's
detection and loading rules are phrased in. -/
def nonEmptyVal (v : Option String) : Prop :=
  ∃ s, v = some s ∧ s ≠ ""

instance : DecidablePred nonEmptyVal := fun v =>
  match v with
  | Option.none => isFalse (by simp [nonEmptyVal])
  | Option.some s =>
    if h : s = "" then isFalse (by simp [nonEmptyVal, h])
    else isTrue ⟨s, rfl, h⟩

theorem truthy_iff (v : Option String) : truthy v = true ↔ nonEmptyVal v := by
  cases v with
  | none => simp [truthy, nonEmptyVal]
  | some s =>
    simp only [truthy, nonEmptyVal, Option.some.injEq, Bool.not_eq_true',
      decide_eq_false_iff_not]
    constructor
    · intro h
      exact ⟨s, rfl, h⟩
    · rintro ⟨t, ht, hne⟩
      subst ht
      exact hne

theorem truthy_and (a b : Option String) :
    (truthy a && truthy b) = true ↔ nonEmptyVal a ∧ nonEmptyVal b := by
  simp [Bool.and_eq_true, truthy_iff]

/-- The provider selection exactly as the claim phrases it: nested
presence-checks in the fixed priority order. -/
def detectProviderSpec (env : Env) : Provider :=
  if nonEmptyVal env.pushoverUser ∧ nonEmptyVal env.pushoverToken then .pushover
  else if nonEmptyVal env.ntfyTopic then .ntfy
  else if nonEmptyVal env.twilioAccountSid ∧ nonEmptyVal env.twilioAuthToken then .twilio
  else if nonEmptyVal env.emailUser ∧ nonEmptyVal env.emailPass then .email
  else .none

/-- C1: `detectProvider` is deterministic over the presence of environment
variables: it returns `pushover` whenever both `PUSHOVER_USER` and
`PUSHOVER_TOKEN` are non-empty; otherwise `ntfy` whenever `NTFY_TOPIC` is
non-empty; otherwise `twilio` whenever both `TWILIO_ACCOUNT_SID` and
`TWILIO_AUTH_TOKEN` are non-empty; otherwise `email` whenever both
`EMAIL_USER` and `EMAIL_PASS` are non-empty; otherwise `none` — so when
several backends are configured at once, exactly the higher-priority one is
chosen. -/
theorem detectProvider_eq_spec (env : Env) :
    detectProvider env = detectProviderSpec env := by
  simp only [detectProvider, detectProviderSpec]
  by_cases h1 : nonEmptyVal env.pushoverUser ∧ nonEmptyVal env.pushoverToken
  · rw [if_pos ((truthy_and _ _).mpr h1), if_pos h1]
  · rw [if_neg (fun hb => h1 ((truthy_and _ _).mp hb)), if_neg h1]
    by_cases h2 : nonEmptyVal env.ntfyTopic
    · rw [if_pos ((truthy_iff _).mpr h2), if_pos h2]
    · rw [if_neg (fun hb => h2 ((truthy_iff _).mp hb)), if_neg h2]
      by_cases h3 : nonEmptyVal env.twilioAccountSid ∧ nonEmptyVal env.twilioAuthToken
      · rw [if_pos ((truthy_and _ _).mpr h3), if_pos h3]
      · rw [if_neg (fun hb => h3 ((truthy_and _ _).mp hb)), if_neg h3]
        by_cases h4 : nonEmptyVal env.emailUser ∧ nonEmptyVal env.emailPass
        · rw [if_pos ((truthy_and _ _).mpr h4), if_pos h4]
        · rw [if_neg (fun hb => h4 ((truthy_and _ _).mp hb)), if_neg h4]

/-- The single-segment limit per encoding, as the claim states it. -/
def singleSegmentLimit : SmsEncoding → Nat
  | .gsm7 => 160
  | .ucs2 => 70

/-- The multi-segment per-part limit per encoding, as the claim states it. -/
def multiSegmentLimit : SmsEncoding → Nat
  | .gsm7 => 153
  | .ucs2 => 67

theorem segCount_formula (c single multi : Nat) (hm : 0 < multi) (hsm : multi ≤ single) :
    ((if c ≤ single then 1 else (Int.ceil ((c : ℚ) / (multi : ℚ))).toNat) = 1 ↔ c ≤ single) ∧
    (single < c →
      (((if c ≤ single then 1 else (Int.ceil ((c : ℚ) / (multi : ℚ))).toNat) : Nat) : ℤ) =
        Int.ceil ((c : ℚ) / (multi : ℚ))) := by
  by_cases h : c ≤ single
  · refine ⟨by simp [h], fun hlt => absurd h (not_le.mpr hlt)⟩
  · have hmc : (multi : ℚ) < (c : ℚ) := by
      exact_mod_cast lt_of_le_of_lt hsm (not_le.mp h)
    have hm' : (0 : ℚ) < (multi : ℚ) := by exact_mod_cast hm
    have h1 : (1 : ℚ) < (c : ℚ) / (multi : ℚ) := (one_lt_div hm').mpr hmc
    have hceil : (1 : ℤ) < Int.ceil ((c : ℚ) / (multi : ℚ)) :=
      Int.lt_ceil.mpr (by exact_mod_cast h1)
    have hpos : (0 : ℤ) ≤ Int.ceil ((c : ℚ) / (multi : ℚ)) := le_of_lt (lt_trans one_pos hceil)
    constructor
    · simp only [if_neg h]
      constructor
      · intro h1'
        exfalso
        have : Int.ceil ((c : ℚ) / (multi : ℚ)) = 1 := by
          rw [← Int.toNat_of_nonneg hpos, h1']
          rfl
        omega
      · intro hc
        exact absurd hc h
    · intro _
      simp only [if_neg h]
      exact Int.toNat_of_nonneg hpos

/-- C2: `calculateSegmentCount` returns `segmentCount = 1` exactly when the
effective character count is at most the single-segment limit (160 for GSM-7,
70 for UCS-2), and otherwise returns the ceiling of the effective character
count divided by the multi-segment per-part limit (153 for GSM-7, 67 for
UCS-2). -/
theorem segmentCount_spec (text : String) :
    ((calculateSegmentCount text).segmentCount = 1 ↔
      (calculateSegmentCount text).charCount ≤
        singleSegmentLimit (calculateSegmentCount text).encoding) ∧
    (singleSegmentLimit (calculateSegmentCount text).encoding <
        (calculateSegmentCount text).charCount →
      (((calculateSegmentCount text).segmentCount : Nat) : ℤ) =
        Int.ceil (((calculateSegmentCount text).charCount : ℚ) /
          (multiSegmentLimit (calculateSegmentCount text).encoding : ℚ))) := by
  cases h : detectMessageEncoding text with
  | gsm7 =>
    have := segCount_formula
      (text.data.foldl (fun acc c => acc + (if GSM7_EXTENDED_CHARS.contains c then 2 else 1)) 0)
      160 153 (by norm_num) (by norm_num)
    simpa [calculateSegmentCount, h, singleSegmentLimit, multiSegmentLimit] using this
  | ucs2 =>
    have := segCount_formula (jsStringLength text) 70 67 (by norm_num) (by norm_num)
    simpa [calculateSegmentCount, h, singleSegmentLimit, multiSegmentLimit] using this

set_option maxRecDepth 8000 in
/-- A closed instance of `segmentCount_spec` at a concrete 200-character
GSM-7 message (two segments). -/
theorem segmentCount_spec_witness :
    singleSegmentLimit (calculateSegmentCount (String.mk (List.replicate 200 'a'))).encoding <
      (calculateSegmentCount (String.mk (List.replicate 200 'a'))).charCount ∧
    (((calculateSegmentCount (String.mk (List.replicate 200 'a'))).segmentCount : Nat) : ℤ) =
      Int.ceil (((calculateSegmentCount (String.mk (List.replicate 200 'a'))).charCount : ℚ) /
        (multiSegmentLimit (calculateSegmentCount (String.mk (List.replicate 200 'a'))).encoding : ℚ)) ∧
    (calculateSegmentCount (String.mk (List.replicate 200 'a'))).segmentCount = 2 := by
  have h := (segmentCount_spec (String.mk (List.replicate 200 'a'))).2 (by decide)
  refine ⟨by decide, h, ?_⟩
  have hc : (calculateSegmentCount (String.mk (List.replicate 200 'a'))).charCount = 200 := by
    decide
  have he : (calculateSegmentCount (String.mk (List.replicate 200 'a'))).encoding = .gsm7 := by
    decide
  rw [hc, he] at h
  simp only [multiSegmentLimit] at h
  have hceil : Int.ceil (((200 : Nat) : ℚ) / ((153 : Nat) : ℚ)) = 2 := by
    rw [Int.ceil_eq_iff]
    constructor <;> norm_num
  rw [hceil] at h
  exact_mod_cast h

/-- The claim-side GSM-7 effective count: each basic character counts 1,
each extended character counts 2. -/
def gsm7EffectiveCount (text : String) : Nat :=
  (text.data.map (fun c => if GSM7_EXTENDED_CHARS.contains c then 2 else 1)).sum

/-- The claim-side UTF-16 storage-unit count: each code point at or above
U+10000 occupies two units. -/
def utf16UnitCount (text : String) : Nat :=
  (text.data.map (fun c => if 65536 ≤ c.toNat then 2 else 1)).sum

theorem foldl_add_eq_sum (f : Char → Nat) (l : List Char) (init : Nat) :
    l.foldl (fun acc c => acc + f c) init = init + (l.map f).sum := by
  induction l generalizing init with
  | nil => simp
  | cons c t ih => simp [List.foldl_cons, ih, Nat.add_assoc]

/-- C3 counterexample: the claim says the wide-encoding effective count is
the number of code points; on the single-emoji message U+1F600 the code
computes 2 (UTF-16 code units) while the message has 1 code point. -/
theorem charCount_counterexample :
    (calculateSegmentCount (String.mk [Char.ofNat 128512])).encoding = .ucs2 ∧
    (calculateSegmentCount (String.mk [Char.ofNat 128512])).charCount = 2 ∧
    (String.mk [Char.ofNat 128512]).data.length = 1 := by
  refine ⟨by decide, by decide, by decide⟩

/-- C3 amended: under GSM-7 the effective count sums 1 per basic character
and 2 per extended character; under UCS-2 it is the number of UTF-16 storage
units (`text.length` in JavaScript), where a code point at or above U+10000
counts as 2 — not the number of code points. -/
theorem charCount_amended (text : String) :
    ((calculateSegmentCount text).encoding = .gsm7 →
      (calculateSegmentCount text).charCount = gsm7EffectiveCount text) ∧
    ((calculateSegmentCount text).encoding = .ucs2 →
      (calculateSegmentCount text).charCount = utf16UnitCount text) := by
  cases h : detectMessageEncoding text with
  | gsm7 =>
    constructor
    · intro _
      simp only [calculateSegmentCount, h, if_pos, gsm7EffectiveCount]
      rw [foldl_add_eq_sum (fun c => if GSM7_EXTENDED_CHARS.contains c then 2 else 1)]
      simp
    · intro hcontra
      simp [calculateSegmentCount, h] at hcontra
  | ucs2 =>
    constructor
    · intro hcontra
      simp [calculateSegmentCount, h] at hcontra
    · intro _
      simp only [calculateSegmentCount, h, utf16UnitCount, jsStringLength]
      rw [foldl_add_eq_sum (fun c => if 65536 ≤ c.toNat then 2 else 1)]
      simp

/-- A closed instance of `charCount_amended`: the GSM-7 branch at `"a[b"`
(extended char `[` counts 2) and the UCS-2 branch at the single-emoji
message. -/
theorem charCount_amended_witness :
    (calculateSegmentCount "a[b").charCount = gsm7EffectiveCount "a[b" ∧
    gsm7EffectiveCount "a[b" = 4 ∧
    (calculateSegmentCount (String.mk [Char.ofNat 128512])).charCount =
      utf16UnitCount (String.mk [Char.ofNat 128512]) := by
  refine ⟨(charCount_amended "a[b").1 (by decide), by decide, ?_⟩
  exact (charCount_amended (String.mk [Char.ofNat 128512])).2 (by decide)

/-- C4: `detectMessageEncoding` returns GSM-7 exactly when every character
of the text belongs to the GSM-7 basic set or the GSM-7 extended set, and
returns UCS-2 whenever some character lies outside both sets. -/
theorem detectEncoding_spec (text : String) :
    (detectMessageEncoding text = .gsm7 ↔
      ∀ c ∈ text.data, c ∈ GSM7_BASIC_CHARS ∨ c ∈ GSM7_EXTENDED_CHARS) ∧
    ((∃ c ∈ text.data, ¬(c ∈ GSM7_BASIC_CHARS ∨ c ∈ GSM7_EXTENDED_CHARS)) →
      detectMessageEncoding text = .ucs2) := by
  have main : ∀ l : List Char,
      detectMessageEncodingAux l = .gsm7 ↔
        ∀ c ∈ l, c ∈ GSM7_BASIC_CHARS ∨ c ∈ GSM7_EXTENDED_CHARS := by
    intro l
    induction l with
    | nil => simp [detectMessageEncodingAux]
    | cons c t ih =>
      by_cases hb : c ∈ GSM7_BASIC_CHARS
      · simp [detectMessageEncodingAux, hb, ih]
      · by_cases he : c ∈ GSM7_EXTENDED_CHARS
        · simp [detectMessageEncodingAux, hb, he, ih]
        · simp [detectMessageEncodingAux, hb, he]
  constructor
  · exact main text.data
  · rintro ⟨c, hc, hvio⟩
    cases h : detectMessageEncoding text with
    | gsm7 => exact absurd (((main text.data).mp h) c hc) hvio
    | ucs2 => rfl

/-- A closed instance of `detectEncoding_spec`: `"hello"` is all-basic and
classified GSM-7; the emoji message contains a character outside both sets
and is classified UCS-2. -/
theorem detectEncoding_spec_witness :
    detectMessageEncoding "hello" = .gsm7 ∧
    detectMessageEncoding (String.mk [Char.ofNat 128512]) = .ucs2 := by
  constructor
  · exact ((detectEncoding_spec "hello").1).mpr (by decide)
  · exact (detectEncoding_spec (String.mk [Char.ofNat 128512])).2
      ⟨Char.ofNat 128512, by decide, by decide⟩

/-- C5: the exit-code mapping is total and exact — success exits 0,
`INVALID_PHONE` exits 4, `MISSING_CONFIG` and `AUTH_FAILED` exit 3,
`NETWORK_ERROR`, `PROVIDER_ERROR` and `RATE_LIMITED` exit 5, and any
unclassified code string falls to the default arm and exits 1. -/
theorem exitCode_mapping :
    ExitCodes.SUCCESS = 0 ∧
    (∀ e : SendError,
      exitWithError e =
        match e.code with
        | .invalidPhone => 4
        | .missingConfig => 3
        | .authFailed => 3
        | .networkError => 5
        | .providerError => 5
        | .rateLimited => 5) ∧
    (∀ s : String,
      s ∉ (["INVALID_PHONE", "MISSING_CONFIG", "AUTH_FAILED", "NETWORK_ERROR",
            "PROVIDER_ERROR", "RATE_LIMITED"] : List String) →
      exitCodeForCodeString s = 1) := by
  refine ⟨rfl, ?_, ?_⟩
  · rintro ⟨c, m, r, g⟩
    cases c <;> rfl
  · intro s hs
    simp only [List.mem_cons, List.not_mem_nil, or_false, not_or] at hs
    obtain ⟨h1, h2, h3, h4, h5, h6⟩ := hs
    simp [exitCodeForCodeString, h1, h2, h3, h4, h5, h6, ExitCodes.GENERAL_ERROR]

/-- A closed instance of `exitCode_mapping`: an `AUTH_FAILED` error exits 3
and an unclassified code string exits 1. -/
theorem exitCode_mapping_witness :
    exitWithError ⟨.authFailed, "m", false, "g"⟩ = 3 ∧
    exitCodeForCodeString "SOMETHING_ELSE" = 1 := by
  refine ⟨exitCode_mapping.2.1 ⟨.authFailed, "m", false, "g"⟩, ?_⟩
  exact exitCode_mapping.2.2 "SOMETHING_ELSE" (by decide)

/-! ## Credential loader soundness (C6) -/

theorem truthy_false_iff (v : Option String) : truthy v = false ↔ ¬ nonEmptyVal v := by
  rw [← truthy_iff]
  cases truthy v <;> simp

theorem truthy_true_elim {v : Option String} (h : truthy v = true) :
    ∃ s, v = some s ∧ s ≠ "" ∧ v.getD "" = s := by
  rcases (truthy_iff v).mp h with ⟨s, hv, hs⟩
  exact ⟨s, hv, hs, by simp [hv]⟩

theorem twilioMissing_nil_iff (env : Env) :
    twilioMissing env = [] ↔
      truthy env.twilioAccountSid = true ∧ truthy env.twilioAuthToken = true ∧
        truthy env.twilioPhoneNumber = true := by
  cases h1 : truthy env.twilioAccountSid <;>
    cases h2 : truthy env.twilioAuthToken <;>
      cases h3 : truthy env.twilioPhoneNumber <;>
        simp [twilioMissing, h1, h2, h3]

theorem twilioMissing_mem (env : Env) :
    (¬ nonEmptyVal env.twilioAccountSid ↔ "TWILIO_ACCOUNT_SID" ∈ twilioMissing env) ∧
    (¬ nonEmptyVal env.twilioAuthToken ↔ "TWILIO_AUTH_TOKEN" ∈ twilioMissing env) ∧
    (¬ nonEmptyVal env.twilioPhoneNumber ↔ "TWILIO_PHONE_NUMBER" ∈ twilioMissing env) := by
  have e1 := truthy_iff env.twilioAccountSid
  have e2 := truthy_iff env.twilioAuthToken
  have e3 := truthy_iff env.twilioPhoneNumber
  cases h1 : truthy env.twilioAccountSid <;>
    cases h2 : truthy env.twilioAuthToken <;>
      cases h3 : truthy env.twilioPhoneNumber <;>
        simp_all [twilioMissing]

theorem emailMissing_nil_iff (env : Env) :
    emailMissing env = [] ↔
      truthy env.emailUser = true ∧ truthy env.emailPass = true ∧
        truthy env.smsCarrier = true := by
  cases h1 : truthy env.emailUser <;>
    cases h2 : truthy env.emailPass <;>
      cases h3 : truthy env.smsCarrier <;>
        simp [emailMissing, h1, h2, h3]

theorem emailMissing_mem (env : Env) :
    (¬ nonEmptyVal env.emailUser ↔ "EMAIL_USER" ∈ emailMissing env) ∧
    (¬ nonEmptyVal env.emailPass ↔ "EMAIL_PASS" ∈ emailMissing env) ∧
    (¬ nonEmptyVal env.smsCarrier ↔ "SMS_CARRIER" ∈ emailMissing env) := by
  have e1 := truthy_iff env.emailUser
  have e2 := truthy_iff env.emailPass
  have e3 := truthy_iff env.smsCarrier
  cases h1 : truthy env.emailUser <;>
    cases h2 : truthy env.emailPass <;>
      cases h3 : truthy env.smsCarrier <;>
        simp_all [emailMissing]

theorem pushoverMissing_nil_iff (env : Env) :
    pushoverMissing env = [] ↔
      truthy env.pushoverUser = true ∧ truthy env.pushoverToken = true := by
  cases h1 : truthy env.pushoverUser <;>
    cases h2 : truthy env.pushoverToken <;>
      simp [pushoverMissing, h1, h2]

theorem pushoverMissing_mem (env : Env) :
    (¬ nonEmptyVal env.pushoverUser ↔ "PUSHOVER_USER" ∈ pushoverMissing env) ∧
    (¬ nonEmptyVal env.pushoverToken ↔ "PUSHOVER_TOKEN" ∈ pushoverMissing env) := by
  have e1 := truthy_iff env.pushoverUser
  have e2 := truthy_iff env.pushoverToken
  cases h1 : truthy env.pushoverUser <;>
    cases h2 : truthy env.pushoverToken <;>
      simp_all [pushoverMissing]

theorem loadCredentials_sound (env : Env) :
    (∀ c, loadCredentials env = .ok c →
        env.twilioAccountSid = some c.accountSid ∧ c.accountSid ≠ "" ∧
        env.twilioAuthToken = some c.authToken ∧ c.authToken ≠ "" ∧
        env.twilioPhoneNumber = some c.fromNumber ∧ c.fromNumber ≠ "") ∧
    (∀ e, loadCredentials env = .error e →
        e.code = .missingConfig ∧ twilioMissing env ≠ [] ∧
        e.message = "Missing required environment variables: " ++
          String.intercalate ", " (twilioMissing env)) := by
  by_cases hm : twilioMissing env = []
  · obtain ⟨h1, h2, h3⟩ := (twilioMissing_nil_iff env).mp hm
    obtain ⟨s1, hv1, hs1, hg1⟩ := truthy_true_elim h1
    obtain ⟨s2, hv2, hs2, hg2⟩ := truthy_true_elim h2
    obtain ⟨s3, hv3, hs3, hg3⟩ := truthy_true_elim h3
    constructor
    · rintro ⟨ca, ct, cf⟩ hc
      simp only [loadCredentials, hm, List.length_nil, gt_iff_lt, lt_self_iff_false,
        if_false, LoadResult.ok.injEq, Credentials.mk.injEq] at hc
      obtain ⟨hA, hB, hC⟩ := hc
      subst hA; subst hB; subst hC
      simp only [hg1, hg2, hg3]
      exact ⟨hv1, hs1, hv2, hs2, hv3, hs3⟩
    · intro e he
      simp [loadCredentials, hm] at he
  · have hlen : 0 < (twilioMissing env).length := List.length_pos.mpr hm
    constructor
    · intro c hc
      simp [loadCredentials, hlen] at hc
    · intro e he
      simp only [loadCredentials, gt_iff_lt, hlen, if_true, LoadResult.error.injEq] at he
      subst he
      exact ⟨rfl, hm, rfl⟩

theorem loadEmailCredentials_sound (env : Env) :
    (∀ c, loadEmailCredentials env = .ok c →
        env.emailUser = some c.user ∧ c.user ≠ "" ∧
        env.emailPass = some c.pass ∧ c.pass ≠ "" ∧
        env.smsCarrier = some c.carrier ∧ c.carrier ≠ "" ∧
        (env.emailHost = Option.none → c.host = "smtp.gmail.com") ∧
        (env.emailPort = Option.none → c.port = some 587) ∧
        (env.emailSecure = Option.none → c.secure = false)) ∧
    (∀ e, loadEmailCredentials env = .error e →
        e.code = .missingConfig ∧ emailMissing env ≠ [] ∧
        e.message = "Missing required environment variables: " ++
          String.intercalate ", " (emailMissing env)) := by
  by_cases hm : emailMissing env = []
  · obtain ⟨h1, h2, h3⟩ := (emailMissing_nil_iff env).mp hm
    obtain ⟨s1, hv1, hs1, hg1⟩ := truthy_true_elim h1
    obtain ⟨s2, hv2, hs2, hg2⟩ := truthy_true_elim h2
    obtain ⟨s3, hv3, hs3, hg3⟩ := truthy_true_elim h3
    constructor
    · rintro ⟨ch, cp, cs, cu, cpa, cc⟩ hc
      simp only [loadEmailCredentials, hm, List.length_nil, gt_iff_lt, lt_self_iff_false,
        if_false, LoadResult.ok.injEq, EmailCredentials.mk.injEq] at hc
      obtain ⟨hH, hP, hS, hU, hPa, hC⟩ := hc
      subst hH; subst hP; subst hS; subst hU; subst hPa; subst hC
      simp only [hg1, hg2, hg3]
      refine ⟨hv1, hs1, hv2, hs2, hv3, hs3, ?_, ?_, ?_⟩
      · intro hh; simp [jsOr, hh]
      · intro hp; simp [jsOr, hp]; decide
      · intro hsec; simp [hsec]
    · intro e he
      simp [loadEmailCredentials, hm] at he
  · have hlen : 0 < (emailMissing env).length := List.length_pos.mpr hm
    constructor
    · intro c hc
      simp [loadEmailCredentials, hlen] at hc
    · intro e he
      simp only [loadEmailCredentials, gt_iff_lt, hlen, if_true, LoadResult.error.injEq] at he
      subst he
      exact ⟨rfl, hm, rfl⟩

theorem loadNtfyCredentials_sound (env : Env) :
    (∀ c, loadNtfyCredentials env = .ok c →
        env.ntfyTopic = some c.topic ∧ c.topic ≠ "" ∧
        (env.ntfyServer = Option.none → c.server = "https://ntfy.sh")) ∧
    (∀ e, loadNtfyCredentials env = .error e →
        e.code = .missingConfig ∧ ¬ nonEmptyVal env.ntfyTopic ∧
        e.message = "Missing required environment variable: NTFY_TOPIC") := by
  cases ht : truthy env.ntfyTopic
  · constructor
    · intro c hc
      simp [loadNtfyCredentials, ht] at hc
    · intro e he
      simp only [loadNtfyCredentials, ht, Bool.not_false, if_true, LoadResult.error.injEq] at he
      subst he
      exact ⟨rfl, (truthy_false_iff env.ntfyTopic).mp ht, rfl⟩
  · obtain ⟨s1, hv1, hs1, hg1⟩ := truthy_true_elim ht
    constructor
    · rintro ⟨ct, cs⟩ hc
      simp only [loadNtfyCredentials, ht, Bool.not_true, Bool.false_eq_true, if_false,
        LoadResult.ok.injEq, NtfyCredentials.mk.injEq] at hc
      obtain ⟨hT, hS⟩ := hc
      subst hT; subst hS
      simp only [hg1]
      refine ⟨hv1, hs1, ?_⟩
      intro hsrv; simp [jsOr, hsrv]
    · intro e he
      simp [loadNtfyCredentials, ht] at he

theorem loadPushoverCredentials_sound (env : Env) :
    (∀ c, loadPushoverCredentials env = .ok c →
        env.pushoverUser = some c.userKey ∧ c.userKey ≠ "" ∧
        env.pushoverToken = some c.apiToken ∧ c.apiToken ≠ "") ∧
    (∀ e, loadPushoverCredentials env = .error e →
        e.code = .missingConfig ∧ pushoverMissing env ≠ [] ∧
        e.message = "Missing required environment variables: " ++
          String.intercalate ", " (pushoverMissing env)) := by
  by_cases hm : pushoverMissing env = []
  · obtain ⟨h1, h2⟩ := (pushoverMissing_nil_iff env).mp hm
    obtain ⟨s1, hv1, hs1, hg1⟩ := truthy_true_elim h1
    obtain ⟨s2, hv2, hs2, hg2⟩ := truthy_true_elim h2
    constructor
    · rintro ⟨cu, ct⟩ hc
      simp only [loadPushoverCredentials, hm, List.length_nil, gt_iff_lt, lt_self_iff_false,
        if_false, LoadResult.ok.injEq, PushoverCredentials.mk.injEq] at hc
      obtain ⟨hU, hT⟩ := hc
      subst hU; subst hT
      simp only [hg1, hg2]
      exact ⟨hv1, hs1, hv2, hs2⟩
    · intro e he
      simp [loadPushoverCredentials, hm] at he
  · have hlen : 0 < (pushoverMissing env).length := List.length_pos.mpr hm
    constructor
    · intro c hc
      simp [loadPushoverCredentials, hlen] at hc
    · intro e he
      simp only [loadPushoverCredentials, gt_iff_lt, hlen, if_true, LoadResult.error.injEq] at he
      subst he
      exact ⟨rfl, hm, rfl⟩

/-- C6: every credential loader either returns a bundle in which every
required field is present and non-empty, or a `MissingConfig` error whose
message enumerates every absent required field by name (a field's name
appears in the missing list exactly when it is absent); no partially
populated bundle is ever returned, and the optional fields (email host,
port, secure flag, ntfy server URL) fall back to their documented defaults
when absent. -/
theorem credential_loaders_spec (env : Env) :
    ((∀ c, loadCredentials env = .ok c →
        env.twilioAccountSid = some c.accountSid ∧ c.accountSid ≠ "" ∧
        env.twilioAuthToken = some c.authToken ∧ c.authToken ≠ "" ∧
        env.twilioPhoneNumber = some c.fromNumber ∧ c.fromNumber ≠ "") ∧
     (∀ e, loadCredentials env = .error e →
        e.code = .missingConfig ∧ twilioMissing env ≠ [] ∧
        e.message = "Missing required environment variables: " ++
          String.intercalate ", " (twilioMissing env)) ∧
     (¬ nonEmptyVal env.twilioAccountSid ↔ "TWILIO_ACCOUNT_SID" ∈ twilioMissing env) ∧
     (¬ nonEmptyVal env.twilioAuthToken ↔ "TWILIO_AUTH_TOKEN" ∈ twilioMissing env) ∧
     (¬ nonEmptyVal env.twilioPhoneNumber ↔ "TWILIO_PHONE_NUMBER" ∈ twilioMissing env)) ∧
    ((∀ c, loadEmailCredentials env = .ok c →
        env.emailUser = some c.user ∧ c.user ≠ "" ∧
        env.emailPass = some c.pass ∧ c.pass ≠ "" ∧
        env.smsCarrier = some c.carrier ∧ c.carrier ≠ "" ∧
        (env.emailHost = Option.none → c.host = "smtp.gmail.com") ∧
        (env.emailPort = Option.none → c.port = some 587) ∧
        (env.emailSecure = Option.none → c.secure = false)) ∧
     (∀ e, loadEmailCredentials env = .error e →
        e.code = .missingConfig ∧ emailMissing env ≠ [] ∧
        e.message = "Missing required environment variables: " ++
          String.intercalate ", " (emailMissing env)) ∧
     (¬ nonEmptyVal env.emailUser ↔ "EMAIL_USER" ∈ emailMissing env) ∧
     (¬ nonEmptyVal env.emailPass ↔ "EMAIL_PASS" ∈ emailMissing env) ∧
     (¬ nonEmptyVal env.smsCarrier ↔ "SMS_CARRIER" ∈ emailMissing env)) ∧
    ((∀ c, loadNtfyCredentials env = .ok c →
        env.ntfyTopic = some c.topic ∧ c.topic ≠ "" ∧
        (env.ntfyServer = Option.none → c.server = "https://ntfy.sh")) ∧
     (∀ e, loadNtfyCredentials env = .error e →
        e.code = .missingConfig ∧ ¬ nonEmptyVal env.ntfyTopic ∧
        e.message = "Missing required environment variable: NTFY_TOPIC")) ∧
    ((∀ c, loadPushoverCredentials env = .ok c →
        env.pushoverUser = some c.userKey ∧ c.userKey ≠ "" ∧
        env.pushoverToken = some c.apiToken ∧ c.apiToken ≠ "") ∧
     (∀ e, loadPushoverCredentials env = .error e →
        e.code = .missingConfig ∧ pushoverMissing env ≠ [] ∧
        e.message = "Missing required environment variables: " ++
          String.intercalate ", " (pushoverMissing env)) ∧
     (¬ nonEmptyVal env.pushoverUser ↔ "PUSHOVER_USER" ∈ pushoverMissing env) ∧
     (¬ nonEmptyVal env.pushoverToken ↔ "PUSHOVER_TOKEN" ∈ pushoverMissing env)) := by
  obtain ⟨tm1, tm2, tm3⟩ := twilioMissing_mem env
  obtain ⟨em1, em2, em3⟩ := emailMissing_mem env
  obtain ⟨pm1, pm2⟩ := pushoverMissing_mem env
  exact
    ⟨⟨(loadCredentials_sound env).1, (loadCredentials_sound env).2, tm1, tm2, tm3⟩,
     ⟨(loadEmailCredentials_sound env).1, (loadEmailCredentials_sound env).2, em1, em2, em3⟩,
     ⟨(loadNtfyCredentials_sound env).1, (loadNtfyCredentials_sound env).2⟩,
     ⟨(loadPushoverCredentials_sound env).1, (loadPushoverCredentials_sound env).2, pm1, pm2⟩⟩

/-- A concrete environment for the C6 witness: Pushover fully configured,
Twilio configured except `TWILIO_AUTH_TOKEN` (set to the empty string) and
`TWILIO_PHONE_NUMBER` (unset), optional email fields unset. -/
def envC6 : Env :=
  { pushoverUser := some "u-key"
    pushoverToken := some "t-key"
    ntfyTopic := Option.none
    ntfyServer := Option.none
    twilioAccountSid := some "AC123"
    twilioAuthToken := some ""
    twilioPhoneNumber := Option.none
    emailUser := some "a@b.c"
    emailPass := some "pw"
    smsCarrier := some "att"
    emailHost := Option.none
    emailPort := Option.none
    emailSecure := Option.none }

/-- A closed instance of `credential_loaders_spec` at `envC6`: the Pushover
loader returns a fully populated bundle (and the theorem yields its field
facts); the email loader fills in the documented defaults; the Twilio
missing list names exactly the two absent fields and membership certifies
absence. -/
theorem credential_loaders_spec_witness :
    loadPushoverCredentials envC6 = .ok ⟨"u-key", "t-key"⟩ ∧
    envC6.pushoverUser = some "u-key" ∧ ("u-key" : String) ≠ "" ∧
    loadEmailCredentials envC6 =
      .ok ⟨"smtp.gmail.com", some 587, false, "a@b.c", "pw", "att"⟩ ∧
    ({ host := "smtp.gmail.com", port := some 587, secure := false, user := "a@b.c",
       pass := "pw", carrier := "att" } : EmailCredentials).host = "smtp.gmail.com" ∧
    twilioMissing envC6 = ["TWILIO_AUTH_TOKEN", "TWILIO_PHONE_NUMBER"] ∧
    ¬ nonEmptyVal envC6.twilioAuthToken := by
  have hp : loadPushoverCredentials envC6 = .ok ⟨"u-key", "t-key"⟩ := by decide
  have he : loadEmailCredentials envC6 =
      .ok ⟨"smtp.gmail.com", some 587, false, "a@b.c", "pw", "att"⟩ := by decide
  have h2 := (credential_loaders_spec envC6).2.2.2.1 ⟨"u-key", "t-key"⟩ hp
  have h3 := (credential_loaders_spec envC6).2.1.1 _ he
  have h4 := ((credential_loaders_spec envC6).1.2.2.2.1).mpr (by decide)
  exact ⟨hp, h2.1, h2.2.1, he, h3.2.2.2.2.2.2.1 rfl, by decide, h4⟩

/-- A concrete environment for C7: the email gateway is the detected
provider, `SMS_CARRIER` is non-empty but names no known carrier. -/
def envC7 : Env :=
  { pushoverUser := Option.none
    pushoverToken := Option.none
    ntfyTopic := Option.none
    ntfyServer := Option.none
    twilioAccountSid := Option.none
    twilioAuthToken := Option.none
    twilioPhoneNumber := Option.none
    emailUser := some "you@gmail.com"
    emailPass := some "secret"
    smsCarrier := some "tacobell"
    emailHost := Option.none
    emailPort := Option.none
    emailSecure := Option.none }

/-- C7 evidence: the email credential loader accepts any non-empty
`SMS_CARRIER`, and the `EmailGatewaySmsClient` constructor then throws on an
unrecognized carrier — the exception escapes the client-construction phase
uncaught, so constructing a provider client from a successfully loaded
credential bundle does throw. -/
theorem emailClient_constructor_throws :
    detectProvider envC7 = .email ∧
    loadEmailCredentials envC7 =
      .ok ⟨"smtp.gmail.com", some 587, false, "you@gmail.com", "secret", "tacobell"⟩ ∧
    EmailGatewaySmsClient.make
        ⟨"smtp.gmail.com", some 587, false, "you@gmail.com", "secret", "tacobell"⟩ =
      .thrown "Unknown carrier: tacobell. Supported: att, tmobile, verizon, sprint, uscellular, boost, cricket, metropcs, virgin" ∧
    selectClient envC7 =
      .crashed "Unknown carrier: tacobell. Supported: att, tmobile, verizon, sprint, uscellular, boost, cricket, metropcs, virgin" := by
  refine ⟨by decide, by decide, by decide, by decide⟩

/-- C8 counterexample: a Pushover transport failure with an
authentication-style rejection (`status = 0`, error text "application token
is invalid") is mapped to `ProviderError`, not `AuthFailed`. -/
theorem pushover_auth_counterexample :
    (pushoverSend "+14155552671"
        (.response 0 "r-1" (some ["application token is invalid"]))).error =
      some
        { code := .providerError
          message := "Pushover error: application token is invalid"
          retryable := false
          guidance := "Check your PUSHOVER_USER and PUSHOVER_TOKEN settings." } ∧
    ErrorCode.providerError ≠ ErrorCode.authFailed := ⟨by decide, by decide⟩

/-- C8 amended: auth-style transport failures map to `AuthFailed` with
`retryable = false` for the Twilio and email-gateway backends, but the
Pushover and ntfy backends map auth-style rejections to `ProviderError`
(`retryable = false`); timeout/DNS/connection failures map to `NetworkError`
with `retryable = true` — for Twilio on the `ENOTFOUND`/`ECONNREFUSED`/
`ETIMEDOUT` codes, for the email gateway on `ECONNREFUSED`/`ENOTFOUND`, for
Pushover on any thrown transport error, and for ntfy on a thrown error whose
message mentions the fetch or DNS failure. -/
theorem backend_error_mapping (msg body req dest : String) (status : Nat)
    (errs : Option (List String)) (err : ThrownValue) :
    ((mapTwilioError (.withNumCode 20003 msg)).code = .authFailed ∧
     (mapTwilioError (.withNumCode 20003 msg)).retryable = false) ∧
    ((mapEmailError (.withStrCode "EAUTH" msg)).code = .authFailed ∧
     (mapEmailError (.withStrCode "EAUTH" msg)).retryable = false) ∧
    (status ≠ 1 →
      (pushoverSend dest (.response status req errs)).error.map SendError.code =
          some .providerError ∧
        (pushoverSend dest (.response status req errs)).error.map SendError.retryable =
          some false) ∧
    (status ≠ 429 →
      (NtfySmsClient.mapHttpError status body).code = .providerError ∧
      (NtfySmsClient.mapHttpError status body).retryable = false) ∧
    (∀ code ∈ (["ENOTFOUND", "ECONNREFUSED", "ETIMEDOUT"] : List String),
      (mapTwilioError (.withStrCode code msg)).code = .networkError ∧
      (mapTwilioError (.withStrCode code msg)).retryable = true) ∧
    (∀ code ∈ (["ECONNREFUSED", "ENOTFOUND"] : List String),
      (mapEmailError (.withStrCode code msg)).code = .networkError ∧
      (mapEmailError (.withStrCode code msg)).retryable = true) ∧
    ((pushoverSend dest (.thrown err)).error.map SendError.code = some .networkError ∧
     (pushoverSend dest (.thrown err)).error.map SendError.retryable = some true) ∧
    ((strIncludes err.jsMessage "fetch failed" = true ∨
        strIncludes err.jsMessage "ENOTFOUND" = true) →
      (NtfySmsClient.mapNetworkError err).code = .networkError ∧
      (NtfySmsClient.mapNetworkError err).retryable = true) := by
  refine ⟨⟨rfl, rfl⟩, ⟨rfl, rfl⟩, ?_, ?_, ?_, ?_, ⟨rfl, rfl⟩, ?_⟩
  · intro hs
    simp [pushoverSend, hs]
  · intro hs
    simp [NtfySmsClient.mapHttpError, hs]
  · intro code hcode
    simp only [List.mem_cons, List.not_mem_nil, or_false] at hcode
    rcases hcode with rfl | rfl | rfl <;> exact ⟨rfl, rfl⟩
  · intro code hcode
    simp only [List.mem_cons, List.not_mem_nil, or_false] at hcode
    rcases hcode with rfl | rfl <;> exact ⟨rfl, rfl⟩
  · intro h
    constructor <;>
      · simp only [NtfySmsClient.mapNetworkError]
        rw [if_pos h]

/-- A closed instance of `backend_error_mapping`: Twilio auth code 20003,
Pushover status 0, ntfy HTTP 401, Twilio `ETIMEDOUT`, and an ntfy thrown
error whose message starts with "fetch failed". -/
theorem backend_error_mapping_witness :
    (mapTwilioError (.withNumCode 20003 "bad creds")).code = .authFailed ∧
    (pushoverSend "+14155550100" (.response 0 "r" Option.none)).error.map SendError.code =
      some .providerError ∧
    (NtfySmsClient.mapHttpError 401 "unauthorized").code = .providerError ∧
    (mapTwilioError (.withStrCode "ETIMEDOUT" "t")).code = .networkError ∧
    (NtfySmsClient.mapNetworkError (.errorObj "fetch failed: dns")).code = .networkError := by
  have h0 := backend_error_mapping "bad creds" "unauthorized" "r" "+14155550100" 0
    Option.none (.errorObj "fetch failed: dns")
  have h401 := backend_error_mapping "bad creds" "unauthorized" "r" "+14155550100" 401
    Option.none (.errorObj "fetch failed: dns")
  refine ⟨h0.1.1, (h0.2.2.1 (by decide)).1, (h401.2.2.2.1 (by decide)).1, ?_, ?_⟩
  · exact (h0.2.2.2.2.1 "ETIMEDOUT" (by decide)).1
  · exact (h0.2.2.2.2.2.2.2 (Or.inl (by decide))).1

/-! ## Phone normalization idempotence (C9) -/

theorem digitChar_not_ws_strip {c : Char} (h : isDigitChar c = true) :
    isWsChar c = false ∧ isStripChar c = false := by
  simp only [isDigitChar, Bool.and_eq_true, decide_eq_true_eq] at h
  simp only [isWsChar, isStripChar, Bool.or_eq_false_iff, decide_eq_false_iff_not]
  omega

theorem dropWhile_eq_self_of {p : Char → Bool} {l : List Char}
    (h : ∀ c ∈ l, p c = false) : l.dropWhile p = l := by
  cases l with
  | nil => rfl
  | cons c t => simp [List.dropWhile_cons, h c (by simp)]

theorem parse_digits {s region : String} {ph : ParsedPhone}
    (h : parsePhoneNumberLib s region = some ph) :
    ph.digits ≠ [] ∧ ph.digits.all isDigitChar = true := by
  unfold parsePhoneNumberLib at h
  split_ifs at h with h1 h2 h3 h4 h5
  · injection h with h'
    subst h'
    exact h2
  · injection h with h'
    subst h'
    refine ⟨by simp, ?_⟩
    simp only [List.all_cons, Bool.and_eq_true]
    exact ⟨by decide, h3.2.1⟩
  · injection h with h'
    subst h'
    exact ⟨h3.1, h3.2.1⟩

theorem sanitize_plus_digits {l : List Char} (h : ∀ c ∈ l, isDigitChar c = true) :
    sanitizePhoneNumber (String.mk ('+' :: l)) = String.mk ('+' :: l) := by
  have hnw : ∀ c ∈ '+' :: l, isWsChar c = false := by
    intro c hc
    simp only [List.mem_cons] at hc
    rcases hc with rfl | hc
    · decide
    · exact (digitChar_not_ws_strip (h c hc)).1
  have hns : ∀ c ∈ '+' :: l, (!isStripChar c) = true := by
    intro c hc
    simp only [List.mem_cons] at hc
    rcases hc with rfl | hc
    · decide
    · simp [(digitChar_not_ws_strip (h c hc)).2]
  have h1 : ('+' :: l).dropWhile isWsChar = '+' :: l := dropWhile_eq_self_of hnw
  have h2 : (('+' :: l).reverse).dropWhile isWsChar = ('+' :: l).reverse :=
    dropWhile_eq_self_of (fun c hc => hnw c (List.mem_reverse.mp hc))
  have h3 : trimChars ('+' :: l) = '+' :: l := by
    unfold trimChars
    rw [h1, h2, List.reverse_reverse]
  have h4 : ('+' :: l).filter (fun c => !isStripChar c) = '+' :: l :=
    List.filter_eq_self.mpr hns
  simp only [sanitizePhoneNumber]
  rw [h3, h4]
  rw [if_neg]
  rintro ⟨-, hnp⟩
  exact hnp rfl

theorem parse_plus (region : String) {ph : ParsedPhone} (hne : ph.digits ≠ [])
    (hall : ph.digits.all isDigitChar = true) :
    parsePhoneNumberLib (formatE164 ph) region = some ph := by
  have hd : (formatE164 ph).data = '+' :: ph.digits := rfl
  unfold parsePhoneNumberLib
  rw [hd]
  have hhead : ('+' :: ph.digits).head? = some '+' := rfl
  rw [if_pos hhead]
  rw [if_pos (show ('+' :: ph.digits).tail ≠ [] ∧
    ('+' :: ph.digits).tail.all isDigitChar = true from ⟨hne, hall⟩)]
  rfl

/-- C9: phone normalization is idempotent — whenever
`validateAndFormatPhone` succeeds with canonical result `p`, running it
again on `p.e164` (with the same region) succeeds and returns the same
canonical string (and the same detected country, with the raw field now the
canonical input). -/
theorem validateAndFormatPhone_idempotent (input region : String) (p : PhoneNumber)
    (h : validateAndFormatPhone input region = .ok p) :
    validateAndFormatPhone p.e164 region =
      .ok { raw := p.e164, e164 := p.e164, country := p.country } := by
  simp only [validateAndFormatPhone] at h
  split at h
  · exact absurd h (by simp)
  · next ph heq =>
    by_cases hposs : phoneIsPossible ph = true
    · rw [if_pos hposs] at h
      injection h with h'
      subst h'
      obtain ⟨hne, hall⟩ := parse_digits heq
      have hdig : ∀ c ∈ ph.digits, isDigitChar c = true :=
        fun c hc => List.all_eq_true.mp hall c hc
      have hs : sanitizePhoneNumber (formatE164 ph) = formatE164 ph :=
        sanitize_plus_digits hdig
      simp only [validateAndFormatPhone, hs, parse_plus region hne hall, hposs, if_true]
    · rw [if_neg hposs] at h
      exact absurd h (by simp)

/-- A closed instance of `validateAndFormatPhone_idempotent`: normalizing
the US national number `415-555-2671` yields `+14155552671`, and normalizing
that canonical string again returns it unchanged. -/
theorem validateAndFormatPhone_idempotent_witness :
    validateAndFormatPhone "415-555-2671" "US" =
      .ok { raw := "415-555-2671", e164 := "+14155552671", country := some "US" } ∧
    validateAndFormatPhone "+14155552671" "US" =
      .ok { raw := "+14155552671", e164 := "+14155552671", country := some "US" } := by
  have h : validateAndFormatPhone "415-555-2671" "US" =
      .ok { raw := "415-555-2671", e164 := "+14155552671", country := some "US" } := by
    decide
  exact ⟨h, validateAndFormatPhone_idempotent _ _ _ h⟩

/-- C10: `detectProvider`'s Twilio check inspects only `TWILIO_ACCOUNT_SID`
and `TWILIO_AUTH_TOKEN`, never `TWILIO_PHONE_NUMBER`.  When those two are
non-empty, `TWILIO_PHONE_NUMBER` is unset, and no higher-priority backend is
configured, detection selects Twilio even if a lower-priority backend is
fully configured; the Twilio loader then fails with `MissingConfig` naming
`TWILIO_PHONE_NUMBER`, and the orchestrator exits with code 3 without ever
constructing a client for any backend. -/
theorem twilio_detection_ignores_phone_number (env : Env)
    (hpu : ¬(nonEmptyVal env.pushoverUser ∧ nonEmptyVal env.pushoverToken))
    (hnt : ¬ nonEmptyVal env.ntfyTopic)
    (hsid : nonEmptyVal env.twilioAccountSid)
    (htok : nonEmptyVal env.twilioAuthToken)
    (hpn : env.twilioPhoneNumber = Option.none) :
    detectProvider env = .twilio ∧
    "TWILIO_PHONE_NUMBER" ∈ twilioMissing env ∧
    (∀ e, loadCredentials env = .error e →
      e.code = .missingConfig ∧ selectClient env = .exited 3 e) ∧
    loadCredentials env ≠ .ok ⟨env.twilioAccountSid.getD "", env.twilioAuthToken.getD "",
      env.twilioPhoneNumber.getD ""⟩ ∧
    (∀ c, selectClient env ≠ .clientReady c) := by
  have hdet : detectProvider env = .twilio := by
    simp only [detectProvider]
    rw [if_neg (fun hb => hpu ((truthy_and _ _).mp hb)),
      if_neg (fun hb => hnt ((truthy_iff _).mp hb)),
      if_pos ((truthy_and _ _).mpr ⟨hsid, htok⟩)]
  have hpn' : ¬ nonEmptyVal env.twilioPhoneNumber := by
    rw [hpn]
    rintro ⟨s, hs, -⟩
    exact Option.noConfusion hs
  have hmem : "TWILIO_PHONE_NUMBER" ∈ twilioMissing env :=
    (twilioMissing_mem env).2.2.mp hpn'
  have hm : twilioMissing env ≠ [] := by
    intro hnil
    rw [hnil] at hmem
    exact List.not_mem_nil _ hmem
  have herr : ∀ e, loadCredentials env = .error e →
      e.code = .missingConfig ∧ selectClient env = .exited 3 e := by
    intro e he
    have hcode := ((loadCredentials_sound env).2 e he).1
    refine ⟨hcode, ?_⟩
    simp only [selectClient, hdet, he]
    have : exitWithError e = 3 := by
      simp [exitWithError, hcode, ErrorCode.toCodeString, exitCodeForCodeString,
        ExitCodes.CONFIG_ERROR]
    rw [this]
  have hnotok : loadCredentials env ≠ .ok ⟨env.twilioAccountSid.getD "",
      env.twilioAuthToken.getD "", env.twilioPhoneNumber.getD ""⟩ := by
    intro hok
    have hlen : 0 < (twilioMissing env).length := List.length_pos.mpr hm
    simp [loadCredentials, hlen] at hok
  refine ⟨hdet, hmem, herr, hnotok, ?_⟩
  intro c hc
  have hlen : 0 < (twilioMissing env).length := List.length_pos.mpr hm
  have hload : loadCredentials env = .error
      { code := .missingConfig
        message := "Missing required environment variables: " ++
          String.intercalate ", " (twilioMissing env)
        retryable := false
        guidance := "Please set the following environment variables:\n" ++
          String.intercalate "\n"
            ((twilioMissing env).map (fun v => "  export " ++ v ++ "=\x22your-value\x22")) ++
          "\n\nGet these values from https://console.twilio.com" } := by
    simp only [loadCredentials, gt_iff_lt, hlen, if_true]
  rw [(herr _ hload).2] at hc
  exact RunOutcome.noConfusion hc

/-- A concrete environment for the C10 witness: Twilio SID and auth token
set, `TWILIO_PHONE_NUMBER` unset, the email gateway fully configured. -/
def envC10 : Env :=
  { pushoverUser := Option.none
    pushoverToken := Option.none
    ntfyTopic := Option.none
    ntfyServer := Option.none
    twilioAccountSid := some "AC123"
    twilioAuthToken := some "tok"
    twilioPhoneNumber := Option.none
    emailUser := some "e@x.y"
    emailPass := some "pw"
    smsCarrier := some "att"
    emailHost := Option.none
    emailPort := Option.none
    emailSecure := Option.none }

/-- A closed instance of `twilio_detection_ignores_phone_number` at
`envC10`: the email gateway is fully configured, yet detection selects
Twilio, whose loader fails, and the orchestrator exits with code 3 without
constructing the email client. -/
theorem twilio_detection_ignores_phone_number_witness :
    detectProvider envC10 = .twilio ∧
    "TWILIO_PHONE_NUMBER" ∈ twilioMissing envC10 ∧
    loadEmailCredentials envC10 =
      .ok ⟨"smtp.gmail.com", some 587, false, "e@x.y", "pw", "att"⟩ ∧
    selectClient envC10 ≠
      .clientReady (.email ⟨"smtp.gmail.com", some 587, false, "e@x.y", "pw", "e@x.y",
        "txt.att.net"⟩) := by
  have h := twilio_detection_ignores_phone_number envC10 (by decide) (by decide)
    (by decide) (by decide) (by decide)
  exact ⟨h.1, h.2.1, by decide, h.2.2.2.2 _⟩

end Notify
